import Mathlib

/-!
Verification of the BF6 Tracker Discord bot (`bot.py`) against its
natural-language specification.

The development shallowly embeds the per-player activity state machine of
`check_players`, the poll pass over the roster, the startup state seeding,
and the `add_player` / `remove_player` admin commands.  Machine integers
from the JSON API and timestamps are modelled as `Int`; per-player state
values that are `None` in Python are `Option Int`.  Python code paths that
would raise (`KeyError` on a missing state entry, `TypeError` on
`int - None`) are modelled by returning `none`.
-/

namespace BFTracker

/-- Snapshot of cumulative stats returned by `fetch_stats` for one player:
the `secondsPlayed` and `kills` fields extracted from the API response. -/
structure Snapshot where
  secondsPlayed : Int
  kills : Int
deriving Repr, DecidableEq

/-- Per-player tracking record, as stored in `player_state` (`state.json`):
`seconds_played` and `kills` are `None` until first observed, `last_check`
is the epoch timestamp of the last state-changing observation, `playing`
is the inferred activity flag. -/
structure TrackingRecord where
  seconds_played : Option Int
  kills : Option Int
  last_check : Int
  playing : Bool
deriving Repr, DecidableEq

/-- Notification sent to the Discord channel by `check_players`: either a
rampage message carrying the positive session kill delta (picked from
`RAMPAGE_MESSAGES`) or a zero-kill message (from `ZERO_KILL_MESSAGES`).
The concrete wording is chosen at random in the code; only the kind and
the embedded data are modelled. -/
inductive NotificationEvent where
  | rampage (player : String) (kills : Int)
  | zeroKill (player : String)
deriving Repr, DecidableEq

/-- Kill delta computed at line 173 of `bot.py`:
`session_kills = max(stats["kills"] - state["kills"], 0)`. -/
def session_kills (snapKills recKills : Int) : Int :=
  max (snapKills - recKills) 0

/-- Fresh all-null tracking record, as created by the startup seeding loop
and by `add_player`. -/
def freshRecord : TrackingRecord :=
  { seconds_played := none, kills := none, last_check := 0, playing := false }

/-- Body of the per-player loop of `check_players` (lines 158-201 of
`bot.py`), acting on one player's record given a successfully fetched
snapshot.  Returns the updated record together with the list of messages
sent to the channel during this step, or `none` when the Python code would
raise a `TypeError` (`stats["kills"] - state["kills"]` with `kills` still
`None`).  Branches, in source order: first-time initialisation, play-time
changed (send one message, update the checkpoint), inactivity stop (only
clears `playing`; the send on line 201 is commented out), and the implicit
no-op. -/
def transition (player : String) (state : TrackingRecord) (stats : Snapshot)
    (now threshold : Int) : Option (TrackingRecord × List NotificationEvent) :=
  match state.seconds_played with
  | none =>
      some ({ seconds_played := some stats.secondsPlayed,
              kills := some stats.kills,
              last_check := now,
              playing := false }, [])
  | some sp =>
      if stats.secondsPlayed ≠ sp then
        match state.kills with
        | none => none
        | some k =>
            let sk := session_kills stats.kills k
            let msg := if sk > 0 then NotificationEvent.rampage player sk
                       else NotificationEvent.zeroKill player
            some ({ seconds_played := some stats.secondsPlayed,
                    kills := some stats.kills,
                    last_check := now,
                    playing := true }, [msg])
      else if state.playing = true ∧ now - state.last_check ≥ threshold then
        some ({ state with playing := false }, [])
      else
        some (state, [])

/-- In-memory `player_state` dictionary, modelled as an association list
from username to tracking record (first binding wins on lookup; there is
at most one binding per key in every map the program builds). -/
abbrev StateMap := List (String × TrackingRecord)

/-- Dictionary read `player_state[player]`; `none` models a `KeyError`. -/
def lookupState : StateMap → String → Option TrackingRecord
  | [], _ => none
  | (q, r) :: rest, p => if q = p then some r else lookupState rest p

/-- Dictionary write `player_state[player] = record`: replaces the
existing binding in place, or appends a new one (Python dicts preserve
insertion order). -/
def setState : StateMap → String → TrackingRecord → StateMap
  | [], p, r => [(p, r)]
  | (q, s) :: rest, p, r =>
      if q = p then (p, r) :: rest else (q, s) :: setState rest p r

/-- Startup seeding loop (lines 107-113 of `bot.py`):
`player_state.setdefault(player, {...})` for each configured player. -/
def seed_player_state : List String → StateMap → StateMap
  | [], m => m
  | p :: rest, m =>
      seed_player_state rest
        (if (lookupState m p).isSome then m else setState m p freshRecord)

/-- Per-player loop of `check_players` (lines 153-201): walks the roster
in order; a failed fetch (`fetch p = none`) is skipped with `continue`; a
successful fetch runs `transition` and writes the updated record back into
the map.  Returns the final map, the channel messages in send order, and
the list of players whose fetch succeeded; `none` models an uncaught
Python exception (missing state key or `TypeError` inside `transition`). -/
def checkPlayersLoop (fetch : String → Option Snapshot) (nowAt : String → Int)
    (threshold : Int) : List String → StateMap →
    Option (StateMap × List NotificationEvent × List String)
  | [], states => some (states, [], [])
  | p :: rest, states =>
      match fetch p with
      | none => checkPlayersLoop fetch nowAt threshold rest states
      | some stats =>
          match lookupState states p with
          | none => none
          | some st =>
              match transition p st stats (nowAt p) threshold with
              | none => none
              | some (st', evs) =>
                  match checkPlayersLoop fetch nowAt threshold rest
                      (setState states p st') with
                  | none => none
                  | some (finalStates, evs', fetched) =>
                      some (finalStates, evs ++ evs', p :: fetched)

/-- Observable outcome of one poll pass: the in-memory state map, the
messages sent, the players whose fetch succeeded, and the sequence of
whole-map writes to `state.json` performed by `save_state`. -/
structure PollOutcome where
  states : StateMap
  notifications : List NotificationEvent
  fetched : List String
  savedStates : List StateMap
deriving Repr, DecidableEq

/-- One firing of the `check_players` task (lines 144-203): if the channel
cannot be resolved the pass returns immediately (no fetch, no mutation, no
save); otherwise it runs the per-player loop and then persists the whole
tracking map exactly once.  `none` models the pass dying on an uncaught
exception (in which case `save_state` is not reached). -/
def check_players (channelFound : Bool) (fetch : String → Option Snapshot)
    (nowAt : String → Int) (threshold : Int) (players : List String)
    (states : StateMap) : Option PollOutcome :=
  if channelFound = false then
    some { states := states, notifications := [], fetched := [],
           savedStates := [] }
  else
    match checkPlayersLoop fetch nowAt threshold players states with
    | none => none
    | some (s, evs, fetched) =>
        some { states := s, notifications := evs, fetched := fetched,
               savedStates := [s] }

/-- Roster errors surfaced to the invoking user by the admin commands. -/
inductive RosterError where
  | AlreadyMonitored
  | NotMonitored
deriving Repr, DecidableEq

/-- Observable outcome of an admin command: the roster, the state map, the
sequence of writes to `config.json` (each a roster value) and to
`state.json`, and the error reported to the user, if any. -/
structure AdminOutcome where
  roster : List String
  states : StateMap
  savedConfigs : List (List String)
  savedStates : List StateMap
  error : Option RosterError
deriving Repr, DecidableEq

/-- The `addplayer` command handler (lines 231-251 of `bot.py`): warns and
returns if the username is already in `config["players"]`; otherwise
appends it to the roster, saves the config, creates a fresh all-null
tracking record, and saves the state. -/
def add_player (roster : List String) (states : StateMap) (username : String) :
    AdminOutcome :=
  if username ∈ roster then
    { roster := roster, states := states, savedConfigs := [],
      savedStates := [], error := some RosterError.AlreadyMonitored }
  else
    let roster' := roster ++ [username]
    let states' := setState states username freshRecord
    { roster := roster', states := states', savedConfigs := [roster'],
      savedStates := [states'], error := none }

/-- The `removeplayer` command handler (lines 253-268 of `bot.py`): warns
and returns if the username is not on the roster; otherwise removes its
first occurrence (`list.remove`), saves the config, pops the tracking
record (`dict.pop(username, None)`), and saves the state. -/
def remove_player (roster : List String) (states : StateMap)
    (username : String) : AdminOutcome :=
  if username ∉ roster then
    { roster := roster, states := states, savedConfigs := [],
      savedStates := [], error := some RosterError.NotMonitored }
  else
    let roster' := roster.erase username
    let states' := states.filter (fun x => x.1 ≠ username)
    { roster := roster', states := states', savedConfigs := [roster'],
      savedStates := [states'], error := none }

/-- Data-model invariant on a tracking record (spec section 3):
`seconds_played` and `kills` are both null or both non-null, and
`playing = true` implies `seconds_played` is non-null. -/
def recordInvariant (r : TrackingRecord) : Prop :=
  r.seconds_played.isSome = r.kills.isSome ∧
  (r.playing = true → r.seconds_played.isSome = true)

/-- Every record stored in the map satisfies the data-model invariant. -/
def mapInvariant (m : StateMap) : Prop :=
  ∀ x ∈ m, recordInvariant x.2

/-- Whether one call of the per-player loop body executes the inactivity
branch of `check_players` (line 193 of `bot.py`): play time unchanged,
`playing` set, and silence at least the threshold. -/
def stopFires (state : TrackingRecord) (stats : Snapshot)
    (now threshold : Int) : Bool :=
  decide (state.seconds_played = some stats.secondsPlayed) &&
  state.playing && decide (now - state.last_check ≥ threshold)

/-- Runs the per-player loop body over a sequence of polls (snapshot
observed, time of the poll) for one player, counting how many of the
polls execute the inactivity-stop branch.  `none` models a Python
`TypeError` inside a poll. -/
def countStops (player : String) (threshold : Int) :
    TrackingRecord → List (Snapshot × Int) → Option Nat
  | _, [] => some 0
  | state, (stats, now) :: rest =>
      match transition player state stats now threshold with
      | none => none
      | some (state', _) =>
          match countStops player threshold state' rest with
          | none => none
          | some n =>
              some ((if stopFires state stats now threshold then 1 else 0) + n)

/-! Theorems. -/

/-- C3: for every record whose `seconds_played` is null and every snapshot,
one transition call initialises `seconds_played` and `kills` from the
snapshot, sets `last_check = now`, yields `playing = false`, and produces
no notification. -/
theorem transition_first_observation (player : String) (state : TrackingRecord)
    (stats : Snapshot) (now threshold : Int)
    (h : state.seconds_played = none) :
    transition player state stats now threshold
      = some ({ seconds_played := some stats.secondsPlayed,
                kills := some stats.kills,
                last_check := now,
                playing := false }, []) := by
  unfold transition
  rw [h]

/-- Witness for `transition_first_observation` at the spec scenario
(snapshot `{secondsPlayed:50, kills:2}`). -/
theorem transition_first_observation_witness :
    transition "x" freshRecord { secondsPlayed := 50, kills := 2 } 5 600
      = some ({ seconds_played := some 50, kills := some 2,
                last_check := 5, playing := false }, []) :=
  transition_first_observation "x" freshRecord
    { secondsPlayed := 50, kills := 2 } 5 600 rfl

/-- C2: for every record with non-null counters and every snapshot whose
play seconds differ from the stored checkpoint, the transition — whatever
the previous `playing` flag — emits exactly one notification (zero kill
delta gives the zero-kill kind, positive delta the rampage kind carrying
the delta) and updates the record to the snapshot values with
`last_check = now` and `playing = true`. -/
theorem transition_playtime_changed (player : String) (state : TrackingRecord)
    (stats : Snapshot) (now threshold s k : Int)
    (hs : state.seconds_played = some s) (hk : state.kills = some k)
    (hne : stats.secondsPlayed ≠ s) :
    transition player state stats now threshold
      = some ({ seconds_played := some stats.secondsPlayed,
                kills := some stats.kills,
                last_check := now,
                playing := true },
              [if session_kills stats.kills k > 0
               then NotificationEvent.rampage player (session_kills stats.kills k)
               else NotificationEvent.zeroKill player]) := by
  obtain ⟨ssp, skl, lc, pl⟩ := state
  obtain rfl : ssp = some s := hs
  obtain rfl : skl = some k := hk
  simp only [transition]
  rw [if_pos hne]

/-- Witness for `transition_playtime_changed` at the spec scenario
(record `{50,2,playing:false}`, snapshot `{80,2}`): a single zero-kill
notification. -/
theorem transition_playtime_changed_witness :
    transition "x" { seconds_played := some 50, kills := some 2,
                     last_check := 0, playing := false }
      { secondsPlayed := 80, kills := 2 } 10 600
      = some ({ seconds_played := some 80, kills := some 2,
                last_check := 10, playing := true },
              [if session_kills 2 2 > 0
               then NotificationEvent.rampage "x" (session_kills 2 2)
               else NotificationEvent.zeroKill "x"]) :=
  transition_playtime_changed "x"
    { seconds_played := some 50, kills := some 2,
      last_check := 0, playing := false }
    { secondsPlayed := 80, kills := 2 } 10 600 50 2 rfl rfl (by decide)

/-- C5: for every record with non-null kills and every snapshot, the kill
delta the code computes equals `max(snapshot.kills - record.kills, 0)`; it
is `0` whenever the snapshot's counter regressed below the stored one, and
it is never negative. -/
theorem session_kills_clamped (state : TrackingRecord) (stats : Snapshot)
    (k : Int) (hk : state.kills = some k) :
    session_kills stats.kills k = max (stats.kills - k) 0 ∧
    (stats.kills < k → session_kills stats.kills k = 0) ∧
    0 ≤ session_kills stats.kills k := by
  refine ⟨rfl, ?_, ?_⟩
  · intro h
    unfold session_kills
    exact max_eq_right (by omega)
  · exact le_max_right _ _

/-- Witness for `session_kills_clamped` at a regressed counter
(snapshot kills 3, stored kills 5). -/
theorem session_kills_clamped_witness :
    session_kills 3 5 = max (3 - 5) 0 ∧
    ((3 : Int) < 5 → session_kills 3 5 = 0) ∧
    (0 : Int) ≤ session_kills 3 5 :=
  session_kills_clamped
    { seconds_played := some 1, kills := some 5, last_check := 0,
      playing := false }
    { secondsPlayed := 2, kills := 3 } 5 rfl

/-- C4: a single transition call sends at most one notification — no
branch of the per-player loop body ever sends two or more messages. -/
theorem transition_at_most_one_notification (player : String)
    (state : TrackingRecord) (stats : Snapshot) (now threshold : Int)
    (state' : TrackingRecord) (evs : List NotificationEvent)
    (h : transition player state stats now threshold = some (state', evs)) :
    evs.length ≤ 1 := by
  obtain ⟨ssp, skl, lc, pl⟩ := state
  cases ssp with
  | none =>
      simp only [transition] at h
      cases h
      simp
  | some sp =>
      simp only [transition] at h
      by_cases hne : stats.secondsPlayed ≠ sp
      · rw [if_pos hne] at h
        cases skl with
        | none => cases h
        | some k =>
            simp only at h
            cases h
            simp
      · rw [if_neg hne] at h
        split at h <;> (cases h; simp)

/-- Witness for `transition_at_most_one_notification` at the zero-kill
scenario. -/
theorem transition_at_most_one_notification_witness :
    ([NotificationEvent.zeroKill "x"] : List NotificationEvent).length ≤ 1 :=
  transition_at_most_one_notification "x"
    { seconds_played := some 50, kills := some 2,
      last_check := 0, playing := false }
    { secondsPlayed := 80, kills := 2 } 10 600
    { seconds_played := some 80, kills := some 2,
      last_check := 10, playing := true }
    [NotificationEvent.zeroKill "x"] (by decide)

/-- C1 counterexample: at the spec's own scenario (record
`{secondsPlayed:100, kills:5, lastCheck:0, playing:true}`, snapshot
`{100,5}`, `now = 700`, threshold 600) the inactivity branch clears
`playing` but sends NO notification — the `channel.send` on line 201 of
`bot.py` is commented out, so the event list is empty rather than
containing a session-ended notification. -/
theorem transition_stop_sends_nothing_cex :
    transition "x" { seconds_played := some 100, kills := some 5,
                     last_check := 0, playing := true }
      { secondsPlayed := 100, kills := 5 } 700 600
      = some ({ seconds_played := some 100, kills := some 5,
                last_check := 0, playing := false }, []) := by
  decide

/-- C1 amended: for every record with `playing = true` and non-null
counters, and every snapshot whose play seconds equal the stored
checkpoint, if `now - last_check ≥ threshold` then the transition sets
`playing = false`, leaves `last_check` and the counters unchanged, and
emits no notification (the session-ended send is commented out). -/
theorem transition_inactivity_stop (player : String) (state : TrackingRecord)
    (stats : Snapshot) (now threshold s k : Int)
    (hs : state.seconds_played = some s) (hk : state.kills = some k)
    (hp : state.playing = true) (heq : stats.secondsPlayed = s)
    (hth : now - state.last_check ≥ threshold) :
    transition player state stats now threshold
      = some ({ state with playing := false }, []) := by
  obtain ⟨ssp, skl, lc, pl⟩ := state
  obtain rfl : ssp = some s := hs
  obtain rfl : pl = true := hp
  subst heq
  simp only [transition]
  rw [if_neg (by simp), if_pos ⟨by simp, hth⟩]

/-- Witness for `transition_inactivity_stop` at the spec scenario. -/
theorem transition_inactivity_stop_witness :
    transition "x" { seconds_played := some 100, kills := some 5,
                     last_check := 0, playing := true }
      { secondsPlayed := 100, kills := 5 } 700 600
      = some ({ seconds_played := some 100, kills := some 5,
                last_check := 0, playing := false }, []) :=
  transition_inactivity_stop "x"
    { seconds_played := some 100, kills := some 5,
      last_check := 0, playing := true }
    { secondsPlayed := 100, kills := 5 } 700 600 100 5 rfl rfl rfl rfl
    (by decide)

/-- C8: when the output channel cannot be resolved, `check_players`
returns before doing any work — no player is fetched, the state map is
unchanged, no notification is sent, and nothing is written to the state
file for that pass. -/
theorem check_players_channel_unavailable (fetch : String → Option Snapshot)
    (nowAt : String → Int) (threshold : Int) (players : List String)
    (states : StateMap) :
    check_players false fetch nowAt threshold players states
      = some { states := states, notifications := [], fetched := [],
               savedStates := [] } := rfl

/-- Helper: every binding of `setState m p r` is either the new binding or
a binding of `m`. -/
theorem mem_setState (m : StateMap) (p : String) (r : TrackingRecord)
    (x : String × TrackingRecord) (hx : x ∈ setState m p r) :
    x = (p, r) ∨ x ∈ m := by
  induction m with
  | nil =>
      simp only [setState] at hx
      rcases List.mem_singleton.mp hx with rfl
      exact Or.inl rfl
  | cons y rest ih =>
      obtain ⟨q, s⟩ := y
      simp only [setState] at hx
      split at hx
      · rcases List.mem_cons.mp hx with h | h
        · exact Or.inl h
        · exact Or.inr (List.mem_cons_of_mem _ h)
      · rcases List.mem_cons.mp hx with h | h
        · exact Or.inr (h ▸ List.mem_cons_self _ _)
        · rcases ih h with h' | h'
          · exact Or.inl h'
          · exact Or.inr (List.mem_cons_of_mem _ h')

/-- Helper: the record stored by `setState` is found again by lookup. -/
theorem lookupState_setState_self (m : StateMap) (p : String)
    (r : TrackingRecord) :
    lookupState (setState m p r) p = some r := by
  induction m with
  | nil => simp [setState, lookupState]
  | cons y rest ih =>
      obtain ⟨q, s⟩ := y
      simp only [setState]
      split
      · simp [lookupState]
      · rename_i hq
        simp only [lookupState]
        rw [if_neg hq]
        exact ih

/-- Helper: the fresh all-null record satisfies the data-model invariant. -/
theorem recordInvariant_fresh : recordInvariant freshRecord := by
  constructor <;> simp [freshRecord]

/-- C6: every operation that creates or mutates a tracking record — the
poll transition, the startup seeding, `add_player`, `remove_player` —
preserves the invariant that `seconds_played` and `kills` are both null or
both non-null and that `playing = true` implies `seconds_played` is
non-null. -/
theorem tracking_invariant_preserved :
    (∀ (player : String) (state : TrackingRecord) (stats : Snapshot)
        (now threshold : Int) (state' : TrackingRecord)
        (evs : List NotificationEvent),
      recordInvariant state →
      transition player state stats now threshold = some (state', evs) →
      recordInvariant state') ∧
    (∀ (players : List String) (m : StateMap),
      mapInvariant m → mapInvariant (seed_player_state players m)) ∧
    (∀ (roster : List String) (states : StateMap) (username : String),
      mapInvariant states →
      mapInvariant (add_player roster states username).states) ∧
    (∀ (roster : List String) (states : StateMap) (username : String),
      mapInvariant states →
      mapInvariant (remove_player roster states username).states) := by
  refine ⟨?_, ?_, ?_, ?_⟩
  · intro player state stats now threshold state' evs hinv htr
    obtain ⟨ssp, skl, lc, pl⟩ := state
    cases ssp with
    | none =>
        simp only [transition] at htr
        cases htr
        constructor <;> simp
    | some sp =>
        simp only [transition] at htr
        by_cases hne : stats.secondsPlayed ≠ sp
        · rw [if_pos hne] at htr
          cases skl with
          | none => cases htr
          | some k =>
              simp only at htr
              cases htr
              constructor <;> simp
        · rw [if_neg hne] at htr
          split at htr <;> cases htr
          · exact ⟨hinv.1, by simp⟩
          · exact hinv
  · intro players
    induction players with
    | nil => intro m hm; exact hm
    | cons p rest ih =>
        intro m hm
        simp only [seed_player_state]
        apply ih
        split
        · exact hm
        · intro x hx
          rcases mem_setState _ _ _ _ hx with rfl | hx'
          · exact recordInvariant_fresh
          · exact hm x hx'
  · intro roster states username hm
    unfold add_player
    split
    · exact hm
    · intro x hx
      rcases mem_setState _ _ _ _ hx with rfl | hx'
      · exact recordInvariant_fresh
      · exact hm x hx'
  · intro roster states username hm
    unfold remove_player
    split
    · exact hm
    · intro x hx
      exact hm x (List.mem_of_mem_filter hx)

/-- Witness for `tracking_invariant_preserved`: the mid-session update at
the spec scenario keeps the invariant. -/
theorem tracking_invariant_preserved_witness :
    recordInvariant { seconds_played := some 80, kills := some 2,
                      last_check := 10, playing := true } :=
  tracking_invariant_preserved.1 "x"
    { seconds_played := some 50, kills := some 2,
      last_check := 0, playing := false }
    { secondsPlayed := 80, kills := 2 } 10 600
    { seconds_played := some 80, kills := some 2,
      last_check := 10, playing := true }
    [NotificationEvent.zeroKill "x"]
    ⟨rfl, by simp⟩ (by decide)

/-- C9: `add_player` on an already monitored username fails with
`AlreadyMonitored` and leaves the roster, the tracking store and both
persisted files untouched; on a fresh username it appends to the roster,
persists the config once, stores a fresh all-null record, and persists
the state once. -/
theorem add_player_roster_and_persistence (roster : List String)
    (states : StateMap) (username : String) :
    (username ∈ roster →
      add_player roster states username
        = { roster := roster, states := states, savedConfigs := [],
            savedStates := [],
            error := some RosterError.AlreadyMonitored }) ∧
    (username ∉ roster →
      (add_player roster states username).error = none ∧
      (add_player roster states username).roster = roster ++ [username] ∧
      (add_player roster states username).savedConfigs
        = [roster ++ [username]] ∧
      lookupState (add_player roster states username).states username
        = some freshRecord ∧
      (add_player roster states username).savedStates
        = [(add_player roster states username).states]) := by
  constructor
  · intro hmem
    simp [add_player, hmem]
  · intro hmem
    simp [add_player, hmem, lookupState_setState_self]

/-- Witness for `add_player_roster_and_persistence` at the spec scenario:
the second `addplayer x` call changes nothing and saves nothing. -/
theorem add_player_roster_and_persistence_witness :
    add_player ["x"] [("x", freshRecord)] "x"
      = { roster := ["x"], states := [("x", freshRecord)],
          savedConfigs := [], savedStates := [],
          error := some RosterError.AlreadyMonitored } :=
  (add_player_roster_and_persistence ["x"] [("x", freshRecord)] "x").1
    (by simp)

/-- Helper: when the fetch for player `k` fails, filtering `k` out of the
roster does not change the per-player loop at all — the failed fetch is
skipped by `continue`, which is exactly a no-op. -/
theorem checkPlayersLoop_skip_failed (fetch : String → Option Snapshot)
    (nowAt : String → Int) (threshold : Int) (k : String)
    (hk : fetch k = none) :
    ∀ (players : List String) (states : StateMap),
      checkPlayersLoop fetch nowAt threshold
          (players.filter (fun p => p ≠ k)) states
        = checkPlayersLoop fetch nowAt threshold players states := by
  intro players
  induction players with
  | nil => intro states; rfl
  | cons p rest ih =>
      intro states
      by_cases hp : p = k
      · subst hp
        have hf : (p :: rest).filter (fun q => q ≠ p)
            = rest.filter (fun q => q ≠ p) := by simp
        rw [hf, ih]
        simp only [checkPlayersLoop, hk]
      · have hf : (p :: rest).filter (fun q => q ≠ k)
            = p :: rest.filter (fun q => q ≠ k) := by simp [hp]
        rw [hf]
        simp only [checkPlayersLoop, ih]

/-- C7: if the fetch for player `k` fails during a poll pass, the pass
completes with exactly the outcome it would have had were `k` absent from
the roster — every other player's record is updated identically — and the
whole tracking map is still persisted exactly once at the end of the
pass. -/
theorem check_players_failed_fetch_isolation
    (fetch : String → Option Snapshot) (nowAt : String → Int)
    (threshold : Int) (players : List String) (states : StateMap)
    (k : String) (out : PollOutcome)
    (hk : fetch k = none)
    (h : check_players true fetch nowAt threshold players states = some out) :
    check_players true fetch nowAt threshold
        (players.filter (fun p => p ≠ k)) states = some out
    ∧ out.savedStates = [out.states] := by
  constructor
  · have heq : check_players true fetch nowAt threshold
        (players.filter (fun p => p ≠ k)) states
        = check_players true fetch nowAt threshold players states := by
      unfold check_players
      rw [checkPlayersLoop_skip_failed fetch nowAt threshold k hk players states]
    rw [heq]
    exact h
  · unfold check_players at h
    rw [if_neg (by simp)] at h
    cases hloop : checkPlayersLoop fetch nowAt threshold players states with
    | none => rw [hloop] at h; cases h
    | some triple =>
        obtain ⟨s, evs, fetched⟩ := triple
        rw [hloop] at h
        cases h
        rfl

/-- Witness for `check_players_failed_fetch_isolation`: a two-player
roster where the second player's fetch fails. -/
theorem check_players_failed_fetch_isolation_witness :
    check_players true
        (fun p => if p = "bad" then none
                  else some { secondsPlayed := 5, kills := 1 })
        (fun _ => 100) 600
        ((["a", "bad"]).filter (fun p => p ≠ "bad"))
        [("a", freshRecord), ("bad", freshRecord)]
      = some { states := [("a", { seconds_played := some 5, kills := some 1,
                                  last_check := 100, playing := false }),
                         ("bad", freshRecord)],
               notifications := [], fetched := ["a"],
               savedStates := [[("a", { seconds_played := some 5,
                                        kills := some 1, last_check := 100,
                                        playing := false }),
                                ("bad", freshRecord)]] }
    ∧ ([[("a", { seconds_played := some 5, kills := some 1,
                 last_check := 100, playing := false }),
         ("bad", freshRecord)]] : List StateMap)
      = [[("a", { seconds_played := some 5, kills := some 1,
                  last_check := 100, playing := false }),
          ("bad", freshRecord)]] :=
  check_players_failed_fetch_isolation
    (fun p => if p = "bad" then none
              else some { secondsPlayed := 5, kills := 1 })
    (fun _ => 100) 600 ["a", "bad"]
    [("a", freshRecord), ("bad", freshRecord)] "bad"
    { states := [("a", { seconds_played := some 5, kills := some 1,
                         last_check := 100, playing := false }),
                 ("bad", freshRecord)],
      notifications := [], fetched := ["a"],
      savedStates := [[("a", { seconds_played := some 5, kills := some 1,
                               last_check := 100, playing := false }),
                       ("bad", freshRecord)]] }
    rfl (by decide)

/-- Helper: while `playing` is false and every observed snapshot carries
the stored play seconds, the loop body is a no-op and the inactivity
branch never fires. -/
theorem countStops_of_not_playing (player : String) (threshold s0 : Int) :
    ∀ (polls : List (Snapshot × Int)) (state : TrackingRecord),
      state.seconds_played = some s0 → state.playing = false →
      (∀ x ∈ polls, (x : Snapshot × Int).1.secondsPlayed = s0) →
      countStops player threshold state polls = some 0 := by
  intro polls
  induction polls with
  | nil => intro state _ _ _; rfl
  | cons x rest ih =>
      obtain ⟨stats, now⟩ := x
      intro state hs hp hall
      have hstats : stats.secondsPlayed = s0 :=
        hall (stats, now) (List.mem_cons_self _ _)
      obtain ⟨ssp, skl, lc, pl⟩ := state
      obtain rfl : ssp = some s0 := hs
      obtain rfl : pl = false := hp
      have htr : transition player ⟨some s0, skl, lc, false⟩ stats now threshold
          = some (⟨some s0, skl, lc, false⟩, []) := by
        simp only [transition]
        rw [if_neg (by simp [hstats]), if_neg (by simp)]
      simp only [countStops, htr]
      rw [ih ⟨some s0, skl, lc, false⟩ rfl rfl
        (fun y hy => hall y (List.mem_cons_of_mem _ hy))]
      simp [stopFires]

/-- Helper: over any sequence of polls whose snapshots all carry the
stored play seconds, the inactivity branch fires at most once. -/
theorem countStops_le_one_aux (player : String) (threshold s0 : Int) :
    ∀ (polls : List (Snapshot × Int)) (state : TrackingRecord) (n : Nat),
      state.seconds_played = some s0 →
      (∀ x ∈ polls, (x : Snapshot × Int).1.secondsPlayed = s0) →
      countStops player threshold state polls = some n →
      n ≤ 1 := by
  intro polls
  induction polls with
  | nil =>
      intro state n _ _ h
      simp only [countStops] at h
      cases h
      omega
  | cons x rest ih =>
      obtain ⟨stats, now⟩ := x
      intro state n hs hall h
      have hstats : stats.secondsPlayed = s0 :=
        hall (stats, now) (List.mem_cons_self _ _)
      have hall' : ∀ y ∈ rest, (y : Snapshot × Int).1.secondsPlayed = s0 :=
        fun y hy => hall y (List.mem_cons_of_mem _ hy)
      obtain ⟨ssp, skl, lc, pl⟩ := state
      obtain rfl : ssp = some s0 := hs
      cases pl with
      | false =>
          rw [countStops_of_not_playing player threshold s0
            ((stats, now) :: rest) ⟨some s0, skl, lc, false⟩ rfl rfl hall] at h
          cases h
          omega
      | true =>
          by_cases hth : now - lc ≥ threshold
          · have htr : transition player ⟨some s0, skl, lc, true⟩ stats now
                threshold = some (⟨some s0, skl, lc, false⟩, []) := by
              simp only [transition]
              rw [if_neg (by simp [hstats]), if_pos ⟨by simp, hth⟩]
            simp only [countStops, htr] at h
            rw [countStops_of_not_playing player threshold s0 rest
              ⟨some s0, skl, lc, false⟩ rfl rfl hall'] at h
            have hsf : stopFires ⟨some s0, skl, lc, true⟩ stats now threshold
                = true := by
              simp [stopFires, hstats, hth]
            rw [hsf] at h
            simp at h
            omega
          · have htr : transition player ⟨some s0, skl, lc, true⟩ stats now
                threshold = some (⟨some s0, skl, lc, true⟩, []) := by
              simp only [transition]
              rw [if_neg (by simp [hstats]), if_neg (by simp [hth])]
            simp only [countStops, htr] at h
            have hsf : stopFires ⟨some s0, skl, lc, true⟩ stats now threshold
                = false := by
              simp [stopFires, hth]
            rw [hsf] at h
            cases hc : countStops player threshold ⟨some s0, skl, lc, true⟩
                rest with
            | none => rw [hc] at h; cases h
            | some m =>
                rw [hc] at h
                simp at h
                have hm := ih ⟨some s0, skl, lc, true⟩ m rfl hall' hc
                omega

/-- C10: once the inactivity-stop branch has fired, it cannot fire again
while the observed play seconds stay at the stored checkpoint — over any
sequence of polls with unchanged play seconds, the session-stop step
executes at most once for a player. -/
theorem inactivity_stop_at_most_once (player : String) (threshold s0 : Int)
    (state : TrackingRecord) (polls : List (Snapshot × Int)) (n : Nat)
    (hs : state.seconds_played = some s0)
    (hall : ∀ x ∈ polls, (x : Snapshot × Int).1.secondsPlayed = s0)
    (h : countStops player threshold state polls = some n) :
    n ≤ 1 :=
  countStops_le_one_aux player threshold s0 polls state n hs hall h

/-- Witness for `inactivity_stop_at_most_once`: two quiet polls past the
threshold after an active session fire the stop branch exactly once. -/
theorem inactivity_stop_at_most_once_witness : (1 : Nat) ≤ 1 :=
  inactivity_stop_at_most_once "x" 600 100
    { seconds_played := some 100, kills := some 5,
      last_check := 0, playing := true }
    [({ secondsPlayed := 100, kills := 5 }, 700),
     ({ secondsPlayed := 100, kills := 5 }, 1400)] 1
    rfl (by decide) (by decide)

end BFTracker
